import Mathlib

/-!
Verification development for the stardustxr server core: a shallow embedding of
the zone capture/release/update algorithm (src/nodes/spatial/zone.rs), the node
dispatch core (src/nodes/mod.rs), the capability-slot construction discipline
(src/nodes/fields/cylinder.rs, src/nodes/spatial/zone.rs, src/nodes/audio.rs)
and the capped-cylinder signed-distance field (src/nodes/fields/cylinder.rs).

Floating-point distances are modelled as exact rationals extended with +infinity
(`WithTop ℚ`), with `f32::MAX` as the explicit constant `fMAX`; the cylinder
field is modelled over the reals so that the Euclidean norm is exact.
-/

/-- The constant `f32::MAX` as an exact rational: `(2 - 2⁻²³) · 2¹²⁷ = 2¹²⁸ - 2¹⁰⁴`. -/
def fMAX : ℚ := 2 ^ 128 - 2 ^ 104

/-- Extended distances: a finite rational or `+infinity` (`⊤`). -/
abbrev FDist := WithTop ℚ

/-- Absolute value (`.abs()`) lifted to extended distances; the absolute value of `+infinity`
is `+infinity`. -/
def eabs : FDist → FDist
  | none => none
  | some q => some |q|

/-- Observable notifications emitted by the zone machinery: the remote signals
`capture`/`release`/`enter`/`leave` sent on a zone's node, and the explicit
destruction of a projection alias during `Zone::update`. Each records the zone
id and the affected spatial id. -/
inductive Event where
  | capture (zone spatial : Nat)
  | release (zone spatial : Nat)
  | enter (zone spatial : Nat)
  | leave (zone spatial : Nat)
  | destroyAlias (zone spatial : Nat)
deriving DecidableEq, Repr

/-- Pointwise update of a table indexed by ids. -/
def upd {α : Type} (f : Nat → α) (i : Nat) (v : α) : Nat → α :=
  fun j => if j = i then v else f j

/-- The state read and written by `capture`, `release` and `Zone::update`
(src/nodes/spatial/zone.rs). Spatials and zones are identified by ids.

* `spatialZone s` — the spatial's `zone` weak reference, `none` when Free or
  when the zone is gone (`Weak::upgrade` failing);
* `parent s` / `oldParent s` — the spatial's parent link and its pre-capture
  snapshot (`old_parent`);
* `captured z` — the zone's `captured` registry contents;
* `fieldAlive z` — whether `zone.field.upgrade()` succeeds;
* `dist z s` — the signed distance `field.distance(spatial, vec3a(0,0,0))`
  from zone `z`'s field to spatial `s`'s origin;
* `nodeAlive z` — whether `zone.spatial.node.upgrade()` succeeds;
* `clientOk z` — whether that node also resolves its owning client;
* `zoneables z` — the previous visible set of `Zone::update` (map keys);
* `zoneableRegistry` — `ZONEABLE_REGISTRY.get_valid_contents()` as ids;
* `spatialNodeAlive s` — whether `zoneable.node.upgrade()` succeeds;
* `events` — the trace of notifications sent so far. -/
structure World where
  spatialZone : Nat → Option Nat
  parent : Nat → Option Nat
  oldParent : Nat → Option Nat
  captured : Nat → List Nat
  fieldAlive : Nat → Bool
  dist : Nat → Nat → ℚ
  nodeAlive : Nat → Bool
  clientOk : Nat → Bool
  zoneables : Nat → List Nat
  zoneableRegistry : List Nat
  spatialNodeAlive : Nat → Bool
  events : List Event

/-- Modelled from the spec: `Spatial::zone_distance` lives in
src/nodes/spatial/mod.rs, which is not among the provided sources. Spec §4.5
says "let `old = |distance from spatial's current zone to spatial's origin|`
(use `+infinity` if `Free`)": the signed distance of the capturing zone's field
to the spatial's origin, `+infinity` when Free. When the spatial is captured
but the zone's field no longer resolves, we mirror the `unwrap_or(f32::MAX)`
fallback that `capture` itself uses for an unresolvable field
(src/nodes/spatial/zone.rs:25). -/
def World.zone_distance (w : World) (s : Nat) : FDist :=
  match w.spatialZone s with
  | none => ⊤
  | some z => if w.fieldAlive z then ((w.dist z s : ℚ) : FDist) else ((fMAX : ℚ) : FDist)

/-- Function `release` (src/nodes/spatial/zone.rs:40-54). Restores the snapshotted
parent in place (taking the snapshot), then, if the zone weak reference
upgrades: if the zone's node is gone it returns early (leaving the zone
reference set), otherwise removes the spatial from the zone's captured
registry and sends the "release" remote signal; finally clears the zone
reference. Serialization of the uid (a plain string) is modelled as always
succeeding. -/
def release (w : World) (s : Nat) : World :=
  let w1 : World :=
    { w with
      parent := upd w.parent s (w.oldParent s)
      oldParent := upd w.oldParent s none }
  match w1.spatialZone s with
  | some z =>
      if w1.nodeAlive z then
        { w1 with
          captured := upd w1.captured z ((w1.captured z).filter (fun x => decide (x ≠ s)))
          events := w1.events ++ [Event.release z s]
          spatialZone := upd w1.spatialZone s none }
      else w1
  | none => { w1 with spatialZone := upd w1.spatialZone s none }

/-- The `new_distance` computed by `capture` (src/nodes/spatial/zone.rs:21-25):
`zone.field.upgrade().map(|field| field.distance(spatial, vec3a(0,0,0))).unwrap_or(f32::MAX)`. -/
def new_distance (w : World) (s z : Nat) : FDist :=
  if w.fieldAlive z then ((w.dist z s : ℚ) : FDist) else ((fMAX : ℚ) : FDist)

/-- Function `capture` (src/nodes/spatial/zone.rs:19-39). Computes the old distance via
`Spatial::zone_distance` and the new distance via the zone's field
(`f32::MAX` when the field weak reference fails to upgrade); iff the new
absolute distance is strictly smaller: releases the spatial, snapshots its
current parent, points its zone reference at `z`, adds it to `z`'s captured
registry, and — when `z`'s node still resolves — sends the "capture" remote
signal. -/
def capture (w : World) (s z : Nat) : World :=
  let old_distance := w.zone_distance s
  if eabs (new_distance w s z) < eabs old_distance then
    let w1 := release w s
    let w2 : World :=
      { w1 with
        oldParent := upd w1.oldParent s (w1.parent s)
        spatialZone := upd w1.spatialZone s (some z)
        captured := upd w1.captured z (s :: w1.captured z) }
    if w2.nodeAlive z then { w2 with events := w2.events ++ [Event.capture z s] } else w2
  else w

/-- Method `Zone::update` (src/nodes/spatial/zone.rs:89-153). Fails when the zone's
field weak reference no longer upgrades, then when the zone node or its client
is gone. Otherwise: destroys every alias of the previous visible set, then
computes the new visible set from the zoneable registry — keeping an entry iff
its node is alive and it is either in this zone's captured registry or the
zone's field distance to it is strictly negative and strictly below its
distance to its own capturing zone — sends one "enter" per new-but-not-old id
and one "leave" per old-but-not-new id, and swaps the new set in. Alias
creation and uid serialization are modelled from the spec as always succeeding
(`Alias::create` lives in src/nodes/alias.rs, which is not among the provided
sources; spec §4.5: "For each visible object, create ... an Alias").

The new visible set is factored out as `Zone.visibleSet`
(src/nodes/spatial/zone.rs:107-141): the zoneable registry filtered to entries
whose node is alive, kept iff already in this zone's captured registry or the
zone's field distance is strictly negative and strictly below the entry's
distance to its own capturing zone. -/
def Zone.visibleSet (w : World) (z : Nat) : List Nat :=
  (w.zoneableRegistry.filter (fun s => w.spatialNodeAlive s)).filter
    (fun s =>
      decide (s ∈ w.captured z) ||
        (decide (w.dist z s < 0) && decide (((w.dist z s : ℚ) : FDist) < w.zone_distance s)))

/-- Method `Zone::update` itself (src/nodes/spatial/zone.rs:89-153); see the comment
on `Zone.visibleSet`. -/
def Zone.update (w : World) (z : Nat) : Except String World :=
  if w.fieldAlive z = false then Except.error ("Zone field has been destroyed")
  else if (w.nodeAlive z && w.clientOk z) = false then Except.error ("No client on node?")
  else
    let old := w.zoneables z
    let newVis := Zone.visibleSet w z
    let enters := newVis.filter (fun s => decide (s ∉ old))
    let leaves := old.filter (fun s => decide (s ∉ newVis))
    Except.ok
      { w with
        events :=
          w.events ++ old.map (Event.destroyAlias z) ++ enters.map (Event.enter z)
            ++ leaves.map (Event.leave z)
        zoneables := upd w.zoneables z newVis }

/-! ## Node dispatch (src/nodes/mod.rs) -/

/-- A dispatch payload: self-describing data bytes plus out-of-band file
descriptors (`Message { data, fds }`, src/nodes/mod.rs:41-45). -/
structure Message where
  data : List Nat
  fds : List Nat
deriving DecidableEq, Repr

/-- Errors of `ScenegraphError` as used by `send_local_signal` / `execute_local_method`. -/
inductive SgError where
  | SignalNotFound
  | MethodNotFound
  | BrokenAlias
  | SignalError (error : String)
deriving DecidableEq, Repr

/-- Type `AliasInfo`: the four allow-lists. Modelled from the spec for its field
names (src/nodes/alias.rs is not among the provided sources), but its use
sites in src/nodes/mod.rs (`alias.info.server_signals`, `server_methods`,
`client_signals`) fix the shape. -/
structure AliasInfo where
  server_signals : List String
  server_methods : List String
  client_signals : List String
  client_methods : List String
deriving DecidableEq, Repr

/-- The alias capability of a node: its allow-lists and the weak reference to
the original node (`none` when the original is gone). -/
structure AliasM where
  info : AliasInfo
  original : Option Nat
deriving DecidableEq, Repr

/-- The dispatch-relevant part of a `Node` (src/nodes/mod.rs:65-101): the
optional alias capability (`alias`; named `aliasSlot` here since `alias` is a Lean keyword) and the name sets of the registered local signal and
method handlers. -/
structure NodeM where
  aliasSlot : Option AliasM
  local_signals : List String
  local_methods : List String
deriving DecidableEq, Repr

/-- Method `Node::send_local_signal` (src/nodes/mod.rs:198-224), instrumented to
return which node's local handler is invoked and with which message. Nodes are
resolved through `env`; `fuel` bounds the alias-chain recursion, `none` meaning
it ran out (never the case on real, acyclic alias chains). An alias checks
`method` against its inbound allow-list (`SignalNotFound` when absent), then
upgrades the original (`BrokenAlias` when gone) and recurses **with the same
message** — data and fds alike. A non-alias node looks `method` up in its local
signal table (`SignalNotFound` when absent) and invokes the handler. -/
def send_local_signal (env : Nat → Option NodeM) :
    Nat → Nat → String → Message → Option (Except SgError (Nat × Message))
  | 0, _, _, _ => none
  | fuel + 1, self, method, message =>
    match env self with
    | none => none
    | some n =>
      match n.aliasSlot with
      | some a =>
          if method ∈ a.info.server_signals then
            match a.original with
            | none => some (Except.error SgError.BrokenAlias)
            | some orig => send_local_signal env fuel orig method message
          else some (Except.error SgError.SignalNotFound)
      | none =>
          if method ∈ n.local_signals then some (Except.ok (self, message))
          else some (Except.error SgError.SignalNotFound)

/-- Method `Node::execute_local_method` (src/nodes/mod.rs:225-257), instrumented the
same way; the `Except` value is what the `MethodResponseSender` would observe
on resolution failure. An alias checks its inbound method allow-list
(`MethodNotFound` when absent), upgrades the original (`BrokenAlias` when
gone) and recurses with `Message { data: message.data.clone(), fds: Vec::new() }`
— the data unchanged and the fd list emptied. -/
def execute_local_method (env : Nat → Option NodeM) :
    Nat → Nat → String → Message → Option (Except SgError (Nat × Message))
  | 0, _, _, _ => none
  | fuel + 1, self, method, message =>
    match env self with
    | none => none
    | some n =>
      match n.aliasSlot with
      | some a =>
          if method ∈ a.info.server_methods then
            match a.original with
            | none => some (Except.error SgError.BrokenAlias)
            | some orig =>
                execute_local_method env fuel orig method
                  { data := message.data, fds := [] }
          else some (Except.error SgError.MethodNotFound)
      | none =>
          if method ∈ n.local_methods then some (Except.ok (self, message))
          else some (Except.error SgError.MethodNotFound)

/-! ## Capability slots (`OnceCell` discipline) -/

/-- Semantics of `OnceCell::set`: it keeps the already-stored value and reports failure when the
cell is occupied; the stored value is never overwritten. -/
def onceSet {α : Type} (slot : Option α) (v : α) : Option α :=
  match slot with
  | none => some v
  | some old => some old

/-- The shape parameters a `CylinderField` stores (normalized to their absolute
values on construction and on `set_size`). -/
structure FieldCap where
  length : ℚ
  radius : ℚ
deriving DecidableEq, Repr

/-- The capability slots of a `Node` relevant to the `add_to` constructors
under scrutiny (`spatial`, `field`, `zone`, `sound` — each an `OnceCell`),
plus the node's registered local signal names (a `Zone` registers "capture",
"release" and "update" while attaching; a `CylinderField` registers
"set_size"). Capability instances are identified by ids. -/
structure NodeSlots where
  spatial : Option Nat
  field : Option FieldCap
  zone : Option Nat
  sound : Option Nat
  signals : List String
deriving DecidableEq, Repr

/-- Handler (re-)registration `add_local_signal` (src/nodes/mod.rs:182-184):
inserting under an existing name replaces it, so the name set gains `name`. -/
def addSignal (l : List String) (name : String) : List String :=
  name :: l.filter (fun x => decide (x ≠ name))

/-- Constructor `CylinderField::add_to` (src/nodes/fields/cylinder.rs:21-39): `ensure!`s
that a spatial is attached and that **no** field is attached yet — an occupied
field slot is a construction-time error — then stores `length.abs()` and
`radius.abs()`, registers its field methods and the "set_size" signal, and
sets the field slot. -/
def CylinderField.add_to (n : NodeSlots) (length radius : ℚ) : Except String NodeSlots :=
  if n.spatial.isSome = false then
    Except.error ("Internal: Node does not have a spatial attached!")
  else if n.field.isSome then
    Except.error ("Internal: Node already has a field attached!")
  else
    Except.ok
      { n with
        signals := addSignal n.signals ("set_size")
        field := onceSet n.field ⟨|length|, |radius|⟩ }

/-- Constructor `Zone::add_to` (src/nodes/spatial/zone.rs:63-75): builds the zone,
registers the "capture"/"release"/"update" signals, and does
`let _ = node.zone.set(zone.clone())` — the result of the set is discarded, so
an occupied zone slot is **not** an error: the function still returns the
fresh zone. -/
def Zone.add_to (n : NodeSlots) (newZone : Nat) : NodeSlots × Nat :=
  ({ n with
      signals := addSignal (addSignal (addSignal n.signals ("capture")) ("release")) ("update")
      zone := onceSet n.zone newZone },
    newZone)

/-- Constructor `Sound::add_to` (src/nodes/audio.rs:35-59): `ensure!`s a spatial is
attached, fails when the client is gone or the resource file is not found,
then does `let _ = node.sound.set(sound_arc.clone())` — again discarding the
result — and returns `Ok(sound_arc)` even when the sound slot was already
occupied. -/
def Sound.add_to (n : NodeSlots) (clientAlive resourceFound : Bool) (newSound : Nat) :
    Except String (NodeSlots × Nat) :=
  if n.spatial.isSome = false then
    Except.error ("Internal: Node does not have a spatial attached!")
  else if clientAlive = false then Except.error ("Client not found")
  else if resourceFound = false then Except.error ("Resource not found")
  else Except.ok ({ n with sound := onceSet n.sound newSound }, newSound)

/-! ## Node destruction (src/nodes/mod.rs) -/

/-- The parts of a `Node` that its `destroy` path reads: its scenegraph path,
its `destroyable` flag, and whether its owning client still resolves. -/
structure NodeRec where
  path : String
  destroyable : Bool
  clientAlive : Bool
deriving DecidableEq, Repr

/-- Method `Node::destroy` (src/nodes/mod.rs:162-166): when the owning client
resolves, removes the node's path from the client's scenegraph (modelled as
the list of published paths); otherwise does nothing. -/
def Node.destroyNode (sg : List String) (n : NodeRec) : List String :=
  if n.clientAlive then sg.filter (fun p => decide (p ≠ n.path)) else sg

/-- Handler `<Node as NodeAspect>::destroy` (src/nodes/mod.rs:318-323): the handler a
client's destroy request reaches. Calls `Node::destroy` only when the
`destroyable` flag is set, and returns `Ok(())` in every case. -/
def NodeAspect.destroy (sg : List String) (n : NodeRec) : Except String (List String) :=
  Except.ok (if n.destroyable then Node.destroyNode sg n else sg)

/-! ## Capped-cylinder signed distance (src/nodes/fields/cylinder.rs) -/

/-- Euclidean norm of a 2-vector (`Vec2::length`). -/
noncomputable def length2 (x y : ℝ) : ℝ := Real.sqrt (x ^ 2 + y ^ 2)

/-- Method `CylinderField::local_distance` (src/nodes/fields/cylinder.rs:61-67):
`d = vec2(p.xy().length().abs() - radius, p.z.abs() - length * 0.5)`, result
`d.x.max(d.y).min(0.0) + d.max(vec2(0.0, 0.0)).length()`, with the stored
`length`/`radius` parameters. -/
noncomputable def local_distance (length radius x y z : ℝ) : ℝ :=
  let dx := |length2 x y| - radius
  let dz := |z| - length * 0.5
  min (max dx dz) 0 + length2 (max dx 0) (max dz 0)

/-- The spec's reference definition (spec §4.4): with `ρ = |xy|`, `a = |z|`,
`h = length/2`, `dx = ρ - r`, `dz = a - h`, result
`min(max(dx, dz), 0) + length(max((dx, dz), (0, 0)))`. -/
noncomputable def local_distance_spec (length radius x y z : ℝ) : ℝ :=
  let ρ := length2 x y
  let dx := ρ - radius
  let dz := |z| - length / 2
  min (max dx dz) 0 + Real.sqrt (max dx 0 ^ 2 + max dz 0 ^ 2)

/-! ## Helper lemmas -/

lemma upd_self {α : Type} (f : Nat → α) (i : Nat) (v : α) : upd f i v i = v := by
  simp [upd]

lemma upd_ne {α : Type} (f : Nat → α) (i j : Nat) (v : α) (h : j ≠ i) : upd f i v j = f j := by
  simp [upd, h]

lemma fMAX_nonneg : (0 : ℚ) ≤ fMAX := by norm_num [fMAX]

lemma eabs_coe (q : ℚ) : eabs ((q : ℚ) : FDist) = ((|q| : ℚ) : FDist) := rfl

lemma zone_distance_self (w : World) (s z : Nat) (h : w.spatialZone s = some z) :
    w.zone_distance s = new_distance w s z := by
  simp [World.zone_distance, new_distance, h]

lemma release_nodeAlive (w : World) (s : Nat) : (release w s).nodeAlive = w.nodeAlive := by
  unfold release
  cases h : w.spatialZone s <;> simp [h, apply_ite World.nodeAlive]

lemma release_parent_self (w : World) (s : Nat) : (release w s).parent s = w.oldParent s := by
  unfold release
  cases h : w.spatialZone s <;> simp [h, apply_ite World.parent, upd]

lemma capture_eq_of_not_lt (w : World) (s z : Nat)
    (h : ¬ eabs (new_distance w s z) < eabs (w.zone_distance s)) :
    capture w s z = w := by
  simp [capture, h]

lemma capture_spatialZone_self (w : World) (s z : Nat)
    (h : eabs (new_distance w s z) < eabs (w.zone_distance s)) :
    (capture w s z).spatialZone s = some z := by
  simp [capture, h, apply_ite World.spatialZone, upd]

lemma spatialZone_ne_of_lt (w : World) (s z : Nat)
    (h : eabs (new_distance w s z) < eabs (w.zone_distance s)) :
    w.spatialZone s ≠ some z := by
  intro hz
  rw [zone_distance_self w s z hz] at h
  exact lt_irrefl _ h

lemma capture_ne_of_lt (w : World) (s z : Nat)
    (h : eabs (new_distance w s z) < eabs (w.zone_distance s)) :
    capture w s z ≠ w := by
  intro heq
  have h1 := capture_spatialZone_self w s z h
  rw [heq] at h1
  exact spatialZone_ne_of_lt w s z h h1

lemma eabs_top : eabs (⊤ : FDist) = ⊤ := rfl

lemma release_eq_of_zone (w : World) (s zo : Nat) (hzo : w.spatialZone s = some zo)
    (hno : w.nodeAlive zo = true) :
    release w s =
      { w with
        parent := upd w.parent s (w.oldParent s)
        oldParent := upd w.oldParent s none
        captured := upd w.captured zo ((w.captured zo).filter (fun x => decide (x ≠ s)))
        events := w.events ++ [Event.release zo s]
        spatialZone := upd w.spatialZone s none } := by
  unfold release
  simp [hzo, hno]

lemma capture_eq_of_lt (w : World) (s z : Nat)
    (hlt : eabs (new_distance w s z) < eabs (w.zone_distance s)) :
    capture w s z =
      (let w1 := release w s
       let w2 : World :=
         { w1 with
           oldParent := upd w1.oldParent s (w1.parent s)
           spatialZone := upd w1.spatialZone s (some z)
           captured := upd w1.captured z (s :: w1.captured z) }
       if w2.nodeAlive z then { w2 with events := w2.events ++ [Event.capture z s] } else w2) := by
  simp [capture, hlt]

/-- C8: re-capturing a Spatial into the Zone it already occupies is a no-op:
the whole state is unchanged — in particular the parent link, the event trace
(no duplicate "capture" notification) and the captured-set size. -/
theorem capture_same_zone_noop (w : World) (s z : Nat) (h : w.spatialZone s = some z) :
    capture w s z = w ∧
    (capture w s z).parent s = w.parent s ∧
    (capture w s z).events = w.events ∧
    ((capture w s z).captured z).length = (w.captured z).length := by
  have hnoop : capture w s z = w := by
    apply capture_eq_of_not_lt
    rw [zone_distance_self w s z h]
    exact lt_irrefl _
  exact ⟨hnoop, by rw [hnoop], by rw [hnoop], by rw [hnoop]⟩

/-- Concrete world: spatial 0 is captured by zone 1 (and in its registry). -/
def w8 : World where
  spatialZone := fun s => if s = 0 then some 1 else none
  parent := fun _ => none
  oldParent := fun _ => none
  captured := fun z => if z = 1 then [0] else []
  fieldAlive := fun _ => true
  dist := fun _ _ => 1
  nodeAlive := fun _ => true
  clientOk := fun _ => true
  zoneables := fun _ => []
  zoneableRegistry := []
  spatialNodeAlive := fun _ => true
  events := []

theorem capture_same_zone_noop_witness :
    w8.spatialZone 0 = some 1 ∧ capture w8 0 1 = w8 :=
  ⟨rfl, (capture_same_zone_noop w8 0 1 rfl).1⟩

/-- C1: with Z's field resolvable, `capture` changes the spatial's
captured-zone state iff the absolute distance from Z's field is strictly below
the absolute distance to the current capturing zone (`zone_distance`,
+infinity when Free); equal distances keep the incumbent, and a failed strict
test changes no state and sends no notification. -/
theorem capture_strict_inequality_gate (w : World) (s z : Nat)
    (hf : w.fieldAlive z = true) :
    (capture w s z ≠ w ↔ eabs ((w.dist z s : ℚ) : FDist) < eabs (w.zone_distance s)) ∧
    (eabs ((w.dist z s : ℚ) : FDist) < eabs (w.zone_distance s) →
      (capture w s z).spatialZone s = some z) ∧
    (¬ eabs ((w.dist z s : ℚ) : FDist) < eabs (w.zone_distance s) →
      capture w s z = w ∧ (capture w s z).events = w.events) := by
  have hnd : new_distance w s z = ((w.dist z s : ℚ) : FDist) := by simp [new_distance, hf]
  refine ⟨⟨fun hne => ?_, fun hlt => capture_ne_of_lt w s z (by rw [hnd]; exact hlt)⟩,
    fun hlt => capture_spatialZone_self w s z (by rw [hnd]; exact hlt),
    fun hnlt => ?_⟩
  · by_contra hn
    exact hne (capture_eq_of_not_lt w s z (by rw [hnd]; exact hn))
  · have heq := capture_eq_of_not_lt w s z (by rw [hnd]; exact hnlt)
    exact ⟨heq, by rw [heq]⟩

/-- Concrete world: spatial 0 is Free, zone 1 has a live field at distance 1. -/
def w1c : World where
  spatialZone := fun _ => none
  parent := fun _ => none
  oldParent := fun _ => none
  captured := fun _ => []
  fieldAlive := fun _ => true
  dist := fun _ _ => 1
  nodeAlive := fun _ => true
  clientOk := fun _ => true
  zoneables := fun _ => []
  zoneableRegistry := []
  spatialNodeAlive := fun _ => true
  events := []

theorem capture_strict_inequality_gate_witness : capture w1c 0 1 ≠ w1c := by
  apply (capture_strict_inequality_gate w1c 0 1 rfl).1.mpr
  have hz : w1c.zone_distance 0 = ⊤ := rfl
  rw [hz, eabs_top, eabs_coe]
  exact WithTop.coe_lt_top _

/-- C7: on a capture transition away from old zone `zo`, first `release` runs
— the parent is restored from the pre-capture snapshot, the old zone's client
is notified of "release", and the spatial leaves `zo`'s captured registry —
then the restored parent is snapshotted, the zone reference moves to `z`, the
spatial joins `z`'s captured registry, and only then is "capture" notified:
in the trace the "release" event precedes the "capture" event. -/
theorem capture_transition_order (w : World) (s z zo : Nat)
    (hlt : eabs (new_distance w s z) < eabs (w.zone_distance s))
    (hzo : w.spatialZone s = some zo)
    (hno : w.nodeAlive zo = true) (hnz : w.nodeAlive z = true) :
    (capture w s z).events = w.events ++ [Event.release zo s, Event.capture z s] ∧
    (capture w s z).parent s = w.oldParent s ∧
    (capture w s z).oldParent s = w.oldParent s ∧
    (capture w s z).spatialZone s = some z ∧
    s ∈ (capture w s z).captured z ∧
    s ∉ (capture w s z).captured zo := by
  have hzne : zo ≠ z := by
    intro he
    exact spatialZone_ne_of_lt w s z hlt (he ▸ hzo)
  rw [capture_eq_of_lt w s z hlt, release_eq_of_zone w s zo hzo hno]
  simp [upd, hnz, hzne, Ne.symm hzne, List.mem_filter]

/-- Concrete world: spatial 0 is captured by zone 1 (field distance 4); zone 2
is closer (field distance 3/2). -/
def w7 : World where
  spatialZone := fun s => if s = 0 then some 1 else none
  parent := fun _ => none
  oldParent := fun _ => some 9
  captured := fun z => if z = 1 then [0] else []
  fieldAlive := fun _ => true
  dist := fun z _ => if z = 1 then 4 else 3 / 2
  nodeAlive := fun _ => true
  clientOk := fun _ => true
  zoneables := fun _ => []
  zoneableRegistry := []
  spatialNodeAlive := fun _ => true
  events := []

theorem capture_transition_order_witness :
    (capture w7 0 2).events = [Event.release 1 0, Event.capture 2 0] := by
  have hlt : eabs (new_distance w7 0 2) < eabs (w7.zone_distance 0) := by
    have h1 : new_distance w7 0 2 = ((3 / 2 : ℚ) : FDist) := by
      simp [new_distance, w7]
    have h2 : w7.zone_distance 0 = ((4 : ℚ) : FDist) := by
      simp [World.zone_distance, w7]
    rw [h1, h2, eabs_coe, eabs_coe, WithTop.coe_lt_coe,
      abs_of_nonneg (by norm_num : (0 : ℚ) ≤ 3 / 2)]
    norm_num
  have h := capture_transition_order w7 0 2 1 hlt rfl rfl rfl
  simpa using h.1

/-- C10: when Z's field weak reference no longer resolves, `capture` still
proceeds (it is a total function) with `f32::MAX` as the new distance: the
state is unchanged iff `f32::MAX` is not strictly below the old absolute
distance, and a Free spatial (old distance +infinity) is still captured. -/
theorem capture_dead_field (w : World) (s z : Nat) (hf : w.fieldAlive z = false) :
    new_distance w s z = ((fMAX : ℚ) : FDist) ∧
    (capture w s z = w ↔ ¬ ((fMAX : ℚ) : FDist) < eabs (w.zone_distance s)) ∧
    (w.spatialZone s = none → (capture w s z).spatialZone s = some z) := by
  have hnd : new_distance w s z = ((fMAX : ℚ) : FDist) := by simp [new_distance, hf]
  have habs : eabs (new_distance w s z) = ((fMAX : ℚ) : FDist) := by
    rw [hnd, eabs_coe, abs_of_nonneg fMAX_nonneg]
  refine ⟨hnd,
    ⟨fun heq hlt => capture_ne_of_lt w s z (by rw [habs]; exact hlt) heq,
      fun hnlt => capture_eq_of_not_lt w s z (by rw [habs]; exact hnlt)⟩,
    fun hfree => ?_⟩
  apply capture_spatialZone_self
  rw [habs]
  have hz : w.zone_distance s = ⊤ := by simp [World.zone_distance, hfree]
  rw [hz, eabs_top]
  exact WithTop.coe_lt_top _

/-- Concrete world: spatial 0 is Free; zone 1's field weak reference is dead. -/
def w10 : World where
  spatialZone := fun _ => none
  parent := fun _ => none
  oldParent := fun _ => none
  captured := fun _ => []
  fieldAlive := fun _ => false
  dist := fun _ _ => 0
  nodeAlive := fun _ => true
  clientOk := fun _ => true
  zoneables := fun _ => []
  zoneableRegistry := []
  spatialNodeAlive := fun _ => true
  events := []

theorem capture_dead_field_witness : (capture w10 0 1).spatialZone 0 = some 1 :=
  (capture_dead_field w10 0 1 rfl).2.2 rfl

/-- C6: an alias rejects a signal name absent from its inbound allow-list with
`SignalNotFound`, for **every** environment — in particular regardless of any
handler the original registers under that exact name, whose table is never
consulted — and this is the same observable error a non-alias node produces
for a name with no registered handler. -/
theorem alias_signal_allowlist_gate (env : Nat → Option NodeM) (fuel self : Nat)
    (n : NodeM) (a : AliasM) (name : String) (msg : Message)
    (hself : env self = some n) (halias : n.aliasSlot = some a)
    (hname : name ∉ a.info.server_signals) :
    send_local_signal env (fuel + 1) self name msg =
      some (Except.error SgError.SignalNotFound) ∧
    (∀ (self' : Nat) (n' : NodeM), env self' = some n' → n'.aliasSlot = none →
      name ∉ n'.local_signals →
      send_local_signal env (fuel + 1) self' name msg =
        some (Except.error SgError.SignalNotFound)) := by
  constructor
  · simp [send_local_signal, hself, halias, hname]
  · intro self' n' hself' halias' hname'
    simp [send_local_signal, hself', halias', hname']

/-- Environment with node 0 an alias of node 1 allowing inbound signal "grab"
and inbound method "grow"; node 1 registers local handlers under both names. -/
def envA : Nat → Option NodeM := fun i =>
  if i = 0 then
    some
      { aliasSlot :=
          some
            { info :=
                { server_signals := ["grab"]
                  server_methods := ["grow"]
                  client_signals := []
                  client_methods := [] }
              original := some 1 }
        local_signals := []
        local_methods := [] }
  else if i = 1 then
    some { aliasSlot := none, local_signals := ["grab"], local_methods := ["grow"] }
  else none

theorem alias_signal_allowlist_gate_witness :
    send_local_signal envA 2 0 ("wave") { data := [7], fds := [] } =
      some (Except.error SgError.SignalNotFound) :=
  (alias_signal_allowlist_gate envA 1 0
    { aliasSlot :=
        some
          { info :=
              { server_signals := ["grab"]
                server_methods := ["grow"]
                client_signals := []
                client_methods := [] }
            original := some 1 }
      local_signals := []
      local_methods := [] }
    { info :=
        { server_signals := ["grab"]
          server_methods := ["grow"]
          client_signals := []
          client_methods := [] }
      original := some 1 }
    ("wave") { data := [7], fds := [] } rfl rfl (by decide)).1

/-- C2 as stated is false for signals: `send_local_signal` forwards the very
same message across the alias boundary, out-of-band fds included. Here the
alias 0 forwards signal "grab" to original 1 and the invoked handler receives
fd list `[5]`, not `[]`. -/
theorem alias_signal_forwards_fds_counterexample :
    send_local_signal envA 2 0 ("grab") { data := [7], fds := [5] } =
      some (Except.ok (1, { data := [7], fds := [5] })) ∧
    ([5] : List Nat) ≠ [] := by
  constructor
  · simp [send_local_signal, envA]
  · decide

/-- C2 amended: crossing an alias boundary, `execute_local_method` delivers
the data bytes unchanged with the fd list emptied, while `send_local_signal`
forwards the message — data **and** fds — unchanged. -/
theorem alias_boundary_resource_handling (env : Nat → Option NodeM)
    (fuel self orig : Nat) (n : NodeM) (a : AliasM) (name : String) (msg : Message)
    (hself : env self = some n) (halias : n.aliasSlot = some a)
    (horig : a.original = some orig) :
    (name ∈ a.info.server_methods →
      execute_local_method env (fuel + 1) self name msg =
        execute_local_method env fuel orig name { data := msg.data, fds := [] }) ∧
    (name ∈ a.info.server_signals →
      send_local_signal env (fuel + 1) self name msg =
        send_local_signal env fuel orig name msg) := by
  constructor
  · intro hm
    simp [execute_local_method, hself, halias, horig, hm]
  · intro hs
    simp [send_local_signal, hself, halias, horig, hs]

theorem alias_boundary_resource_handling_witness :
    execute_local_method envA 2 0 ("grow") { data := [7], fds := [5] } =
      some (Except.ok (1, { data := [7], fds := [] })) := by
  have h :=
    (alias_boundary_resource_handling envA 1 0 1
      { aliasSlot :=
          some
            { info :=
                { server_signals := ["grab"]
                  server_methods := ["grow"]
                  client_signals := []
                  client_methods := [] }
              original := some 1 }
        local_signals := []
        local_methods := [] }
      { info :=
          { server_signals := ["grab"]
            server_methods := ["grow"]
            client_signals := []
            client_methods := [] }
        original := some 1 }
      ("grow") { data := [7], fds := [5] } rfl rfl rfl).1 (by decide)
  rw [h]
  simp [execute_local_method, envA]

/-- Node with a spatial attached whose `sound` and `zone` slots are already
occupied. -/
def nOcc : NodeSlots :=
  { spatial := some 0, field := none, zone := some 7, sound := some 3, signals := [] }

/-- C3 as stated is false: `Sound::add_to` on a node whose `sound` slot is
already occupied is **not** a construction-time failure — the failed
`OnceCell::set` is discarded (`let _ = node.sound.set(...)`) and the call
returns `Ok` while the slot keeps its first value. -/
theorem occupied_slot_silent_success_counterexample :
    Sound.add_to nOcc true true 9 = Except.ok (nOcc, 9) ∧ nOcc.sound = some 3 := by
  constructor
  · simp [Sound.add_to, nOcc, onceSet]
  · rfl

/-- C3 amended: an occupied capability slot is never overwritten — the first
value is always kept — and `CylinderField::add_to` does reject an occupied
field slot as a construction-time error; but `Zone::add_to` and
`Sound::add_to` do not fail on an occupied slot: the failed set is silently
discarded and the call still reports success. -/
theorem capability_slot_discipline (n : NodeSlots) (l r : ℚ) (z s : Nat)
    (hsp : n.spatial.isSome = true) :
    (n.field.isSome = true →
      CylinderField.add_to n l r =
        Except.error ("Internal: Node already has a field attached!")) ∧
    (∀ z0, n.zone = some z0 →
      (Zone.add_to n z).1.zone = some z0 ∧ (Zone.add_to n z).2 = z) ∧
    (∀ s0, n.sound = some s0 →
      Sound.add_to n true true s = Except.ok ({ n with sound := some s0 }, s)) := by
  refine ⟨fun hf => ?_, fun z0 hz0 => ?_, fun s0 hs0 => ?_⟩
  · simp [CylinderField.add_to, hsp, hf]
  · simp [Zone.add_to, hz0, onceSet]
  · simp [Sound.add_to, hsp, hs0, onceSet]

theorem capability_slot_discipline_witness :
    (Zone.add_to nOcc 2).1.zone = some 7 :=
  ((capability_slot_discipline nOcc 1 1 2 4 rfl).2.1 7 rfl).1

/-- C9: a destroy request on a node whose `destroyable` flag is false returns
`Ok` to the caller while the scenegraph — and so the node — is untouched; the
removal branch runs only for destroyable nodes. -/
theorem destroy_request_gate (sg : List String) (n : NodeRec) :
    NodeAspect.destroy sg n =
      Except.ok (if n.destroyable then Node.destroyNode sg n else sg) ∧
    (n.destroyable = false → NodeAspect.destroy sg n = Except.ok sg) := by
  refine ⟨rfl, fun h => ?_⟩
  simp [NodeAspect.destroy, h]

theorem destroy_request_gate_witness :
    NodeAspect.destroy (["a", "b"])
        { path := ("a"), destroyable := false, clientAlive := true } =
      Except.ok (["a", "b"]) :=
  (destroy_request_gate (["a", "b"])
    { path := ("a"), destroyable := false, clientAlive := true }).2 rfl

lemma count_enter_map (z s : Nat) (l : List Nat) (hl : l.Nodup) :
    (l.map (Event.enter z)).count (Event.enter z s) = if s ∈ l then 1 else 0 := by
  rw [List.count_map_of_injective _ _ (fun a b h => by simpa using h)]
  by_cases h : s ∈ l
  · simp [h, List.count_eq_one_of_mem hl h]
  · simp [h, List.count_eq_zero_of_not_mem h]

lemma count_leave_map (z s : Nat) (l : List Nat) (hl : l.Nodup) :
    (l.map (Event.leave z)).count (Event.leave z s) = if s ∈ l then 1 else 0 := by
  rw [List.count_map_of_injective _ _ (fun a b h => by simpa using h)]
  by_cases h : s ∈ l
  · simp [h, List.count_eq_one_of_mem hl h]
  · simp [h, List.count_eq_zero_of_not_mem h]

lemma count_enter_in_destroy (z z' s : Nat) (l : List Nat) :
    (l.map (Event.destroyAlias z')).count (Event.enter z s) = 0 := by
  rw [List.count_eq_zero]
  simp

lemma count_leave_in_destroy (z z' s : Nat) (l : List Nat) :
    (l.map (Event.destroyAlias z')).count (Event.leave z s) = 0 := by
  rw [List.count_eq_zero]
  simp

lemma count_enter_in_leave (z z' s : Nat) (l : List Nat) :
    (l.map (Event.leave z')).count (Event.enter z s) = 0 := by
  rw [List.count_eq_zero]
  simp

lemma count_leave_in_enter (z z' s : Nat) (l : List Nat) :
    (l.map (Event.enter z')).count (Event.leave z s) = 0 := by
  rw [List.count_eq_zero]
  simp

lemma mem_visibleSet (w : World) (z s : Nat) :
    s ∈ Zone.visibleSet w z ↔
      s ∈ w.zoneableRegistry ∧ w.spatialNodeAlive s = true ∧
        (s ∈ w.captured z ∨
          (w.dist z s < 0 ∧ ((w.dist z s : ℚ) : FDist) < w.zone_distance s)) := by
  simp [Zone.visibleSet, List.mem_filter, and_assoc]
  tauto

lemma visibleSet_nodup (w : World) (z : Nat) (h : w.zoneableRegistry.Nodup) :
    (Zone.visibleSet w z).Nodup :=
  (h.filter _).filter _

lemma zone_update_ok (w : World) (z : Nat) (hf : w.fieldAlive z = true)
    (hn : w.nodeAlive z = true) (hc : w.clientOk z = true) :
    Zone.update w z = Except.ok
      { w with
        events := w.events ++ (w.zoneables z).map (Event.destroyAlias z)
          ++ ((Zone.visibleSet w z).filter
              (fun s => decide (s ∉ w.zoneables z))).map (Event.enter z)
          ++ ((w.zoneables z).filter
              (fun s => decide (s ∉ Zone.visibleSet w z))).map (Event.leave z)
        zoneables := upd w.zoneables z (Zone.visibleSet w z) } := by
  simp [Zone.update, hf, hn, hc]

/-- C4: a successful `Zone::update` computes the new visible set as exactly
the live zoneable-registry entries that are already in the zone's captured
set, or strictly inside the field (raw signed distance < 0) and strictly
closer to it than to their own capturing zone; it emits exactly one "enter"
per id in the new set but not the old, exactly one "leave" per id in the old
set but not the new, none for ids in both, and destroys every alias of the
previous visible set before the new set replaces it. -/
theorem zone_update_diff (w : World) (z : Nat)
    (hf : w.fieldAlive z = true) (hn : w.nodeAlive z = true) (hc : w.clientOk z = true)
    (hreg : w.zoneableRegistry.Nodup) (hold : (w.zoneables z).Nodup) :
    ∃ w', Zone.update w z = Except.ok w' ∧
      w'.zoneables z = Zone.visibleSet w z ∧
      (∀ s, s ∈ Zone.visibleSet w z ↔
        s ∈ w.zoneableRegistry ∧ w.spatialNodeAlive s = true ∧
          (s ∈ w.captured z ∨
            (w.dist z s < 0 ∧ ((w.dist z s : ℚ) : FDist) < w.zone_distance s))) ∧
      (∀ s, w'.events.count (Event.enter z s) =
        w.events.count (Event.enter z s) +
          (if s ∈ Zone.visibleSet w z ∧ s ∉ w.zoneables z then 1 else 0)) ∧
      (∀ s, w'.events.count (Event.leave z s) =
        w.events.count (Event.leave z s) +
          (if s ∈ w.zoneables z ∧ s ∉ Zone.visibleSet w z then 1 else 0)) ∧
      (∀ s ∈ w.zoneables z, Event.destroyAlias z s ∈ w'.events) := by
  refine ⟨_, zone_update_ok w z hf hn hc, upd_self _ _ _, fun s => mem_visibleSet w z s,
    fun s => ?_, fun s => ?_, fun s hs => ?_⟩
  · dsimp only
    rw [List.count_append, List.count_append, List.count_append,
      count_enter_in_destroy, count_enter_in_leave,
      count_enter_map z s _ ((visibleSet_nodup w z hreg).filter _)]
    simp [List.mem_filter]
  · dsimp only
    rw [List.count_append, List.count_append, List.count_append,
      count_leave_in_destroy, count_leave_in_enter,
      count_leave_map z s _ (hold.filter _)]
    simp [List.mem_filter]
  · dsimp only
    simp only [List.mem_append, List.mem_map]
    exact Or.inl (Or.inl (Or.inr ⟨s, hs, rfl⟩))

/-- Concrete world for `Zone::update` on zone 1: previous visible set
`[10, 11]`; the registry holds 11 and 12, both Free and strictly inside the
field (distance -1). -/
def w4 : World where
  spatialZone := fun _ => none
  parent := fun _ => none
  oldParent := fun _ => none
  captured := fun _ => []
  fieldAlive := fun _ => true
  dist := fun _ _ => -1
  nodeAlive := fun _ => true
  clientOk := fun _ => true
  zoneables := fun z => if z = 1 then [10, 11] else []
  zoneableRegistry := [11, 12]
  spatialNodeAlive := fun _ => true
  events := []

theorem zone_update_diff_witness :
    ∃ w', Zone.update w4 1 = Except.ok w' ∧
      w'.events.count (Event.enter 1 12) = 1 ∧
      w'.events.count (Event.leave 1 10) = 1 ∧
      w'.events.count (Event.enter 1 11) = 0 ∧
      w'.events.count (Event.leave 1 11) = 0 := by
  obtain ⟨w', hok, hzon, hmem, hent, hlv, hdes⟩ :=
    zone_update_diff w4 1 rfl rfl rfl (by decide) (by decide)
  have hin : ∀ s, s ∈ ([11, 12] : List Nat) → s ∈ Zone.visibleSet w4 1 := by
    intro s hs
    rw [mem_visibleSet]
    refine ⟨hs, rfl, Or.inr ⟨show (-1 : ℚ) < 0 by norm_num, ?_⟩⟩
    show ((-1 : ℚ) : FDist) < (⊤ : FDist)
    exact WithTop.coe_lt_top _
  have h10 : (10 : Nat) ∉ Zone.visibleSet w4 1 := by
    rw [mem_visibleSet]
    rintro ⟨h, -⟩
    revert h
    decide
  refine ⟨w', hok, ?_, ?_, ?_, ?_⟩
  · rw [hent 12]
    have hc : 12 ∈ Zone.visibleSet w4 1 ∧ (12 : Nat) ∉ w4.zoneables 1 :=
      ⟨hin 12 (by decide), by decide⟩
    rw [if_pos hc]
    show List.count (Event.enter 1 12) [] + 1 = 1
    simp
  · rw [hlv 10]
    have hc : (10 : Nat) ∈ w4.zoneables 1 ∧ (10 : Nat) ∉ Zone.visibleSet w4 1 :=
      ⟨by decide, h10⟩
    rw [if_pos hc]
    show List.count (Event.leave 1 10) [] + 1 = 1
    simp
  · rw [hent 11]
    have hc : ¬(11 ∈ Zone.visibleSet w4 1 ∧ (11 : Nat) ∉ w4.zoneables 1) := by
      rintro ⟨-, h⟩
      exact h (by decide)
    rw [if_neg hc]
    show List.count (Event.enter 1 11) [] + 0 = 0
    simp
  · rw [hlv 11]
    have hc : ¬((11 : Nat) ∈ w4.zoneables 1 ∧ 11 ∉ Zone.visibleSet w4 1) := by
      rintro ⟨-, h⟩
      exact h (hin 11 (by decide))
    rw [if_neg hc]
    show List.count (Event.leave 1 11) [] + 0 = 0
    simp

/-- C5: with the stored (nonnegative) shape parameters, `local_distance`
coincides with the spec reference definition at every query point; the result
is non-positive whenever the point is inside both bounds, exactly 0 on the
radial bound (within the caps) and on the axial bound (within the radius), and
on the axis (ρ = 0) it has the explicit closed form below — in particular it
is well defined there. -/
theorem cylinder_local_distance_ok (len rad x y z : ℝ)
    (hlen : 0 ≤ len) (hrad : 0 ≤ rad) :
    local_distance len rad x y z = local_distance_spec len rad x y z ∧
    (length2 x y ≤ rad → |z| ≤ len / 2 → local_distance len rad x y z ≤ 0) ∧
    (length2 x y = rad → |z| ≤ len / 2 → local_distance len rad x y z = 0) ∧
    (|z| = len / 2 → length2 x y ≤ rad → local_distance len rad x y z = 0) ∧
    (x = 0 → y = 0 → local_distance len rad x y z =
      min (max (-rad) (|z| - len / 2)) 0 + max (|z| - len / 2) 0) := by
  have h05 : len * 0.5 = len / 2 := by ring
  have habs : |length2 x y| = length2 x y := abs_of_nonneg (Real.sqrt_nonneg _)
  have habs2 : |Real.sqrt (x ^ 2 + y ^ 2)| = Real.sqrt (x ^ 2 + y ^ 2) :=
    abs_of_nonneg (Real.sqrt_nonneg _)
  have h20 : length2 0 0 = 0 := by
    simp [length2]
  refine ⟨?_, ?_, ?_, ?_, ?_⟩
  · simp only [local_distance, local_distance_spec, length2, habs2, h05]
  · intro h1 h2
    have hd1 : |length2 x y| - rad ≤ 0 := by rw [habs]; linarith
    have hd2 : |z| - len * 0.5 ≤ 0 := by rw [h05]; linarith
    simp only [local_distance]
    rw [max_eq_right hd1, max_eq_right hd2, h20, add_zero]
    exact min_le_right _ _
  · intro h1 h2
    have hdx : |length2 x y| - rad = 0 := by rw [habs, h1]; ring
    have hd2 : |z| - len * 0.5 ≤ 0 := by rw [h05]; linarith
    simp only [local_distance]
    rw [hdx, max_eq_left hd2, max_eq_right hd2, max_self, h20]
    simp
  · intro h1 h2
    have hdz : |z| - len * 0.5 = 0 := by rw [h05, h1]; ring
    have hdx : |length2 x y| - rad ≤ 0 := by rw [habs]; linarith
    simp only [local_distance]
    rw [hdz, max_eq_right hdx, max_eq_right (le_refl (0 : ℝ)), h20]
    simp
  · intro hx hy
    subst hx
    subst hy
    simp only [local_distance]
    rw [h20, abs_zero, zero_sub, h05]
    have hmr : max (-rad) 0 = 0 := max_eq_right (by linarith)
    rw [hmr]
    have hlm : length2 0 (max (|z| - len / 2) 0) = max (|z| - len / 2) 0 := by
      simp only [length2]
      rw [show (0 : ℝ) ^ 2 + max (|z| - len / 2) 0 ^ 2 = max (|z| - len / 2) 0 ^ 2 by ring,
        Real.sqrt_sq (le_max_right _ _)]
    rw [hlm]

theorem cylinder_local_distance_ok_witness :
    local_distance 2 1 0 0 0 = local_distance_spec 2 1 0 0 0 ∧
    local_distance 2 1 0 0 0 ≤ 0 := by
  have h := cylinder_local_distance_ok 2 1 0 0 0 (by norm_num) (by norm_num)
  refine ⟨h.1, h.2.1 ?_ ?_⟩
  · show length2 0 0 ≤ 1
    simp [length2]
  · show |(0 : ℝ)| ≤ 2 / 2
    simp
